import Mathlib

/-!
Verification of the transcript analyzer (`analyze_techniques.py`) and the
visualizer launcher (`master_visualizer_generator.py`) of the repository.

The analyzer's regular expressions use only a small fragment of regex
syntax: case-insensitive literals, the classes `\s`, `\d`, `[,\s]`,
`[:\-]`, `[^.]`, the quantifiers `*`, `+`, `?` applied to single
classes, top-level alternation, and a single capturing group `([^.]+)`.
We embed exactly that fragment, with Python's greedy leftmost backtracking
semantics and `re.findall`'s non-overlapping scan.
-/

namespace Inkra

/-- Python `\s` (ASCII fragment): space, tab, newline, CR, VT, FF. -/
def isPySpace (c : Char) : Bool :=
  c == ' ' || c == '\t' || c == '\n' || c == '\r' || c == '\x0b' || c == '\x0c'

/-- Character classes occurring in the analyzer's patterns. -/
inductive CCls where
  | lit (c : Char)
  | ws
  | digit
  | commaWs
  | colonDash
  | notDot
deriving DecidableEq

/-- Whether a character is in the class.  `lit` compares case-insensitively
(the analyzer always compiles with `re.IGNORECASE`); patterns are written
with lowercase literals. -/
def CCls.accepts : CCls → Char → Bool
  | .lit d, c => c.toLower == d
  | .ws, c => isPySpace c
  | .digit, c => c.isDigit
  | .commaWs, c => c == ',' || isPySpace c
  | .colonDash, c => c == ':' || c == '-'
  | .notDot, c => c != '.'

/-- The regex fragment used by `analyze_techniques.py`: quantifiers apply
only to single character classes, and `grp` is a capturing group. -/
inductive RE where
  | eps
  | ch (c : CCls)
  | starc (c : CCls)
  | plusc (c : CCls)
  | optc (c : CCls)
  | seq (a b : RE)
  | alt (a b : RE)
  | grp (r : RE)
deriving DecidableEq

/-- Length of the maximal run of characters of class `c` at the head. -/
def leadCount (c : CCls) : List Char → Nat
  | [] => 0
  | a :: s => if c.accepts a then leadCount c s + 1 else 0

/-- Backtracking matcher.  `REmatch r s` returns, in Python's backtracking
priority order (greedy quantifiers, left alternative first), the list of
`(rest, captures)` pairs: `rest` is the input remaining after the match and
`captures` the text of each capturing group in order. -/
def REmatch : RE → List Char → List (List Char × List (List Char))
  | .eps, s => [(s, [])]
  | .ch _, [] => ([] : List (List Char × List (List Char)))
  | .ch c, a :: s => if c.accepts a then [(s, [])] else []
  | .starc c, s =>
      (List.range (leadCount c s + 1)).map (fun i => (s.drop (leadCount c s - i), []))
  | .plusc c, s =>
      (List.range (leadCount c s)).map (fun i => (s.drop (leadCount c s - i), []))
  | .optc _, [] => [([], [])]
  | .optc c, a :: s => if c.accepts a then [(s, []), (a :: s, [])] else [(a :: s, [])]
  | .seq a b, s =>
      ((REmatch a s).map (fun p =>
        (REmatch b p.1).map (fun q => (q.1, p.2 ++ q.2)))).flatten
  | .alt a b, s => REmatch a s ++ REmatch b s
  | .grp r, s =>
      (REmatch r s).map (fun p => (p.1, p.2 ++ [s.take (s.length - p.1.length)]))

/-- Whether the pattern contains a capturing group; `re.findall` then
returns group contents instead of whole matches. -/
def RE.hasGrp : RE → Bool
  | .eps => false
  | .ch _ => false
  | .starc _ => false
  | .plusc _ => false
  | .optc _ => false
  | .seq a b => a.hasGrp || b.hasGrp
  | .alt a b => a.hasGrp || b.hasGrp
  | .grp _ => true

/-- One step of `re.findall`'s scan with explicit fuel: at each position try
to match; on success record the match (the first capture when the pattern
has a group, the whole matched text otherwise) and continue after it
(advancing one character on an empty match, as Python does); on failure
advance one character. -/
def scanFuel (r : RE) (g : Bool) : Nat → List Char → List (List Char)
  | 0, _ => []
  | _ + 1, [] =>
      match REmatch r [] with
      | [] => []
      | (_, caps) :: _ => [if g then caps.headD [] else []]
  | fuel + 1, a :: s =>
      match REmatch r (a :: s) with
      | [] => scanFuel r g fuel s
      | (r1, caps) :: _ =>
          (if g then caps.headD [] else (a :: s).take ((a :: s).length - r1.length)) ::
            (if r1.length < (a :: s).length then scanFuel r g fuel r1
             else scanFuel r g fuel s)

/-- `re.findall(pattern, text, re.IGNORECASE)`: non-overlapping matches in
order of position.  The fuel `s.length + 1` is sufficient because every
recursive step of the scan consumes at least one character. -/
def findall (r : RE) (s : List Char) : List (List Char) :=
  scanFuel r r.hasGrp (s.length + 1) s

/-- Case-insensitive literal word as a regex. -/
def lits (s : String) : RE :=
  s.data.foldr (fun c r => .seq (.ch (.lit c)) r) .eps

/-- `[s]?` -/
def optS : RE := .optc (.lit 's')

/-- `\s*` -/
def wsStar : RE := .starc .ws

/-- `([^\.]+)` -/
def grpNotDot : RE := .grp (.plusc .notDot)

/-- The fixed 18-pattern keyword dictionary of `extract_techniques`, in
source order. -/
def patternList : List (String × RE) :=
  [ ("geometry_nodes", .seq (lits "geometry") (.seq wsStar (.seq (lits "node") optS))),
    ("sound_input", .seq (lits "sound") (.seq wsStar (lits "input"))),
    ("bake_sound", .seq (lits "bake") (.seq wsStar (lits "sound"))),
    ("spectral_analysis", .alt (lits "spectral") (.alt (lits "frequency") (lits "spectrum"))),
    ("audio_animation", .seq (lits "audio") (.seq wsStar (lits "animation"))),
    ("drivers", .seq (lits "driver") optS),
    ("modifiers", .seq (lits "modifier") optS),
    ("particle_systems", .seq (lits "particle") (.seq optS (.seq wsStar (.seq (lits "system") optS)))),
    ("material_nodes", .seq (lits "material") (.seq wsStar (.seq (lits "node") optS))),
    ("vertex_groups", .seq (lits "vertex") (.seq wsStar (.seq (lits "group") optS))),
    ("curve_objects", .seq (lits "curve") (.seq optS (.seq wsStar (.seq (lits "object") optS)))),
    ("displacement", lits "displacement"),
    ("scale_animation", .seq (lits "scale") (.seq wsStar (lits "animation"))),
    ("emission_shader", .seq (lits "emission") (.seq wsStar (lits "shader"))),
    ("wave_texture", .seq (lits "wave") (.seq wsStar (lits "texture"))),
    ("noise_texture", .seq (lits "noise") (.seq wsStar (lits "texture"))),
    ("mix_shader", .seq (lits "mix") (.seq wsStar (lits "shader"))),
    ("add_shader", .seq (lits "add") (.seq wsStar (lits "shader"))) ]

/-- The body of the `extract_techniques` loop: `re.findall`, then append
`(technique, len(matches))` when the match list is nonempty. -/
def techEntry (text : List Char) (np : String × RE) : Option (String × Nat) :=
  if (findall np.2 text).length = 0 then none else some (np.1, (findall np.2 text).length)

/-- `extract_techniques(text)`: the `(technique, count)` pairs, in pattern
order, for patterns with at least one match. -/
def extract_techniques (text : List Char) : List (String × Nat) :=
  patternList.filterMap (techEntry text)

/-- The step lead-in patterns of `extract_steps`, in source order. -/
def stepPatterns : List RE :=
  [ .seq (lits "step") (.seq wsStar (.seq (.plusc .digit) (.seq (.optc .colonDash) (.seq wsStar grpNotDot)))),
    .seq (lits "first") (.seq (.plusc .commaWs) grpNotDot),
    .seq (lits "next") (.seq (.plusc .commaWs) grpNotDot),
    .seq (lits "then") (.seq (.plusc .commaWs) grpNotDot),
    .seq (lits "finally") (.seq (.plusc .commaWs) grpNotDot),
    .seq (lits "now") (.seq (.plusc .commaWs) grpNotDot),
    .seq (lits "after") (.seq wsStar (.seq (lits "that") (.seq (.plusc .commaWs) grpNotDot))) ]

/-- `extract_steps(text)`: concatenate the findall results of every step
pattern in order, then keep the first 10 (`steps[:10]`). -/
def extract_steps (text : List Char) : List (List Char) :=
  ((stepPatterns.map (fun p => findall p text)).flatten).take 10

/-- Association-list lookup with the `defaultdict`-style default 0: the
per-file count the analyzer reports for a keyword (a keyword with no
matches simply does not appear in `extract_techniques`' output). -/
def lookupCount (k : String) : List (String × Nat) → Nat
  | [] => 0
  | (k2, n) :: rest => if k2 = k then n else lookupCount k rest

/-- A keyword's per-file count in the analyzer's output. -/
def perFileCount (text : List Char) (k : String) : Nat :=
  lookupCount k (extract_techniques text)

/-- Python `str.split()` with no argument: the maximal runs of
non-whitespace characters.  Used for `len(text.split())`. -/
def pyWords (s : List Char) : List (List Char) :=
  (s.foldr
    (fun c acc =>
      if isPySpace c then [] :: acc
      else
        match acc with
        | [] => [[c]]
        | w :: ws => (c :: w) :: ws)
    []).filter (fun w => w ≠ [])

/-- Python `str.title()` on the characters: uppercase a letter not preceded
by a letter, lowercase the rest.  `prevAlpha` is whether the previous
character was a letter. -/
def pyTitleAux : Bool → List Char → List Char
  | _, [] => []
  | prevAlpha, c :: rest =>
      if c.isAlpha then
        (if prevAlpha then c.toLower else c.toUpper) :: pyTitleAux true rest
      else c :: pyTitleAux false rest

/-- Python `str.title()`. -/
def pyTitle (s : String) : String := String.mk (pyTitleAux false s.data)

/-- The per-tutorial summary dictionary built in `main`. -/
structure Summary where
  title : String
  techniques : List (String × Nat)
  key_steps : List (List Char)
  word_count : Nat
deriving DecidableEq

/-- `os.path.basename(f).replace('_transcript.txt', '')`. -/
def titleOf (transcript_file : String) : String :=
  ((transcript_file.splitOn "/").getLastD transcript_file).replace "_transcript.txt" ""

/-- The summary `main` builds for one transcript file: the techniques, the
first five extracted steps (`steps[:5]`), and the word count. -/
def mkSummary (transcript_file : String) (text : List Char) : Summary :=
  { title := titleOf transcript_file
    techniques := extract_techniques text
    key_steps := (extract_steps text).take 5
    word_count := (pyWords text).length }

/-- One `all_techniques[technique] += count` update of the
`defaultdict(int)`, represented as an insertion-ordered association list. -/
def bumpCount : List (String × Nat) → String × Nat → List (String × Nat)
  | [], kv => [kv]
  | (k2, v2) :: rest, (k, v) =>
      if k2 = k then (k2, v2 + v) :: rest else (k2, v2) :: bumpCount rest (k, v)

/-- Python `sorted(..., key=lambda x: x[1], reverse=True)`: descending in
the second component. -/
def descBySnd (a b : String × Nat) : Prop := b.2 ≤ a.2

instance : DecidableRel descBySnd := fun a b => Nat.decLe b.2 a.2

/-- `tutorial_summaries.sort(key=lambda x: x['word_count'], reverse=True)`:
descending in word count. -/
def descByWordCount (a b : Summary) : Prop := b.word_count ≤ a.word_count

instance : DecidableRel descByWordCount := fun a b => Nat.decLe b.word_count a.word_count

/-- One technique line of the report:
`f"- **{technique.replace('_', ' ').title()}**: {count} mentions\n"`. -/
def techniqueLine (t : String × Nat) : String :=
  "- **" ++ pyTitle (t.1.replace "_" " ") ++ "**: " ++ toString t.2 ++ " mentions\n"

/-- The observable outcome of `main`: the sorted aggregate counts, the
technique lines of the report in emission order, the per-file summaries in
report order, and the final console line's technique name. -/
structure Report where
  sorted_techniques : List (String × Nat)
  techniqueLines : List String
  sortedSummaries : List Summary
  mostCommon : String
deriving DecidableEq

/-- `sorted_techniques[0][0] if sorted_techniques else 'None'`. -/
def mostCommonOf : List (String × Nat) → String
  | [] => "None"
  | (t, _) :: _ => t

/-- The pure body of `main` over the already-read `(filename, text)` pairs:
aggregate counts into the defaultdict, build one summary per file, sort the
counts descending, sort the summaries by word count descending, and render
the technique lines. -/
def analyzeFiles (files : List (String × List Char)) : Report :=
  let all_techniques :=
    files.foldl (fun acc ft => (extract_techniques ft.2).foldl bumpCount acc) []
  let tutorial_summaries := files.map (fun ft => mkSummary ft.1 ft.2)
  let sorted_techniques := List.insertionSort descBySnd all_techniques
  { sorted_techniques := sorted_techniques
    techniqueLines := sorted_techniques.map techniqueLine
    sortedSummaries := List.insertionSort descByWordCount tutorial_summaries
    mostCommon := mostCommonOf sorted_techniques }

/-- Reading the transcript files in order: `main` has no handler around
`open`, so the first read error propagates and aborts the loop. -/
def readAllFiles : List (String × Except String (List Char)) →
    Except String (List (String × List Char))
  | [] => .ok []
  | (_, .error e) :: _ => .error e
  | (name, .ok text) :: rest =>
      match readAllFiles rest with
      | .error e => .error e
      | .ok ts => .ok ((name, text) :: ts)

/-- The whole batch run of `main`: each file read may fail (`Except.error`
is an `IOError` escaping `open`); a report exists only when every read
succeeded. -/
def analyzeBatch (files : List (String × Except String (List Char))) :
    Except String Report :=
  (readAllFiles files).map analyzeFiles

/-! ### The visualizer launcher (`master_visualizer_generator.py`) -/

/-- One entry of the `VISUALIZERS` registry. -/
structure VizInfo where
  name : String
  description : String
  script : String
deriving DecidableEq

/-- Association-list lookup, modelling Python dict membership/access. -/
def assoc {α : Type} (k : String) : List (String × α) → Option α
  | [] => none
  | (k2, v) :: rest => if k2 = k then some v else assoc k rest

/-- The fixed `VISUALIZERS` registry, in source order. -/
def VISUALIZERS : List (String × VizInfo) :=
  [ ("geometry_nodes_waveform",
      ⟨"Advanced Geometry Nodes Waveform",
       "Complex waveform using procedural geometry nodes with particle systems",
       "geometry_nodes_waveform.py"⟩),
    ("fluid_audio",
      ⟨"Fluid Simulation Audio Reactive",
       "Ocean-like fluid simulation that responds to audio frequencies",
       "fluid_audio_visualizer.py"⟩),
    ("procedural_space",
      ⟨"Procedural Space Visualizer",
       "Cosmic environment with stars, nebulae, and audio-reactive planets",
       "procedural_space_visualizer.py"⟩),
    ("organic_growth",
      ⟨"Organic Growth Visualizer",
       "Plant-like growth patterns with L-systems and procedural animation",
       "organic_growth_visualizer.py"⟩),
    ("crystalline_resonance",
      ⟨"Crystalline Resonance Visualizer",
       "Fractal crystals that shatter and reform with audio resonance",
       "crystalline_resonance_visualizer.py"⟩),
    ("quantum_interference",
      ⟨"Quantum Interference Visualizer",
       "Wave interference patterns with probability clouds and dimensional rifts",
       "quantum_interference_visualizer.py"⟩) ]

/-- The fixed `AUDIO_FILES` list. -/
def AUDIO_FILES : List String :=
  [ "/Users/magnusfremont/Desktop/VibeWriter/audio_remaster/output/remastered_final.m4a",
    "/Users/magnusfremont/Desktop/VibeWriter/audio_remaster/output/remastered_adaptive.m4a",
    "/Users/magnusfremont/Desktop/VibeWriter/audio_remaster/output/remastered_balanced.m4a",
    "/Users/magnusfremont/Desktop/VibeWriter/audio_remaster/output/remastered_concise.m4a",
    "/Users/magnusfremont/Desktop/VibeWriter/audio_remaster/output/remastered_storytelling.m4a" ]

/-- Outcome of `subprocess.run(cmd, capture_output=True, text=True,
timeout=...)`: normal completion with a return code and captured output,
`subprocess.TimeoutExpired`, or any other raised exception. -/
inductive SubprocResult where
  | completed (returncode : Int) (stdout stderr : String)
  | timedOut
  | raised (msg : String)
deriving DecidableEq

/-- The host environment the launcher script observes: the directory
containing the scripts (`Path(__file__).parent`), `os.path.exists`,
`Path.exists` for script files, and the result of a subprocess invocation
of a command with a timeout in seconds. -/
structure Env where
  scriptDir : String
  pathExists : String → Bool
  scriptFileExists : String → Bool
  runProcess : List String → Nat → SubprocResult

/-- The candidate Blender locations probed, in order; the last entry is the
bare name `"blender"` relying on PATH. -/
def possible_paths : List String :=
  [ "/Applications/Blender.app/Contents/MacOS/Blender",
    "/usr/local/bin/blender",
    "/usr/bin/blender",
    "blender" ]

/-- The probe loop of `get_blender_executable`: return the first candidate
`path` with `os.path.exists(path) or path == "blender"`. -/
def probePaths (env : Env) : List String → Option String
  | [] => none
  | p :: rest => if env.pathExists p || p == "blender" then some p else probePaths env rest

/-- `get_blender_executable()`: probe the fixed candidate list; `none`
models the `return None` after the loop (with the printed error). -/
def get_blender_executable (env : Env) : Option String :=
  probePaths env possible_paths

/-- `run_visualizer(visualizer_key, audio_file, ...)`.  The returned pair
is the boolean result together with the list of `(command, timeout)`
subprocess invocations performed (empty on the early-return paths).  The
audio file defaults to `AUDIO_FILES[0]` but is never put into the command;
`output_dir` affects only directory creation and is not modelled. -/
def run_visualizer (env : Env) (visualizer_key : String) (audio_file : Option String) :
    Bool × List (List String × Nat) :=
  match assoc visualizer_key VISUALIZERS with
  | none => (false, [])
  | some visualizer =>
    let script_path := env.scriptDir ++ "/" ++ visualizer.script
    if env.scriptFileExists script_path = false then (false, [])
    else
      match get_blender_executable env with
      | none => (false, [])
      | some blender_exe =>
        let _audio_file := audio_file.getD (AUDIO_FILES.headD "")
        let cmd := [blender_exe, "--background", "--python", script_path]
        match env.runProcess cmd 300 with
        | .completed returncode _ _ => (returncode == 0, [(cmd, 300)])
        | .timedOut => (false, [(cmd, 300)])
        | .raised _ => (false, [(cmd, 300)])

/-! ### Theorems -/

theorem techEntry_eq (text : List Char) (np : String × RE) :
    techEntry text np = none ∨
      techEntry text np = some (np.1, (findall np.2 text).length) := by
  unfold techEntry
  split
  · exact Or.inl rfl
  · exact Or.inr rfl

theorem lookupCount_absent (text : List Char) (kw : String) (L : List (String × RE))
    (h : kw ∉ L.map Prod.fst) :
    lookupCount kw (L.filterMap (techEntry text)) = 0 := by
  induction L with
  | nil => rfl
  | cons hd tl ih =>
      obtain ⟨k, p⟩ := hd
      have hk : k ≠ kw := fun he => h (by simp [he])
      have htl : kw ∉ tl.map Prod.fst := fun hm => h (by simp [hm])
      rcases techEntry_eq text (k, p) with he | he <;> rw [List.filterMap_cons, he]
      · exact ih htl
      · simpa [lookupCount, hk] using ih htl

theorem lookupCount_filterMap (text : List Char) (kw : String) (p : RE)
    (L : List (String × RE)) (hnd : (L.map Prod.fst).Nodup) (hmem : (kw, p) ∈ L) :
    lookupCount kw (L.filterMap (techEntry text)) = (findall p text).length := by
  induction L with
  | nil => exact absurd hmem (List.not_mem_nil _)
  | cons hd tl ih =>
      obtain ⟨k, q⟩ := hd
      rw [List.map_cons, List.nodup_cons] at hnd
      rcases List.mem_cons.mp hmem with heq | hmem2
      · injection heq with h1 h2
        subst h1
        subst h2
        rcases techEntry_eq text (kw, p) with he | he <;> rw [List.filterMap_cons, he]
        · have hzero : (findall p text).length = 0 := by
            unfold techEntry at he
            split at he
            · assumption
            · exact absurd he (by simp)
          rw [hzero]
          exact lookupCount_absent text kw tl hnd.1
        · simp [lookupCount]
      · have hk : k ≠ kw := by
          intro he
          exact hnd.1 (by rw [he]; exact List.mem_map.mpr ⟨(kw, p), hmem2, rfl⟩)
        rcases techEntry_eq text (k, q) with he | he <;> rw [List.filterMap_cons, he]
        · exact ih hnd.2 hmem2
        · simpa [lookupCount, hk] using ih hnd.2 hmem2

/-- C1: for every input text and every keyword of the fixed 18-pattern set,
if the text contains the keyword's pattern N times (case-insensitively,
non-overlapping, i.e. `re.findall` yields N matches), then the analyzer's
per-file count for that keyword is N, and for positive N the pair
`(keyword, N)` literally appears in `extract_techniques`' output. -/
theorem c1_per_file_count (text : List Char) (kw : String) (p : RE) (N : Nat)
    (hmem : (kw, p) ∈ patternList) (hN : (findall p text).length = N) :
    perFileCount text kw = N ∧ (0 < N → (kw, N) ∈ extract_techniques text) := by
  constructor
  · rw [perFileCount, extract_techniques,
      lookupCount_filterMap text kw p patternList (by decide) hmem, hN]
  · intro hpos
    have hsome : techEntry text (kw, p) = some (kw, N) := by
      unfold techEntry
      rw [hN]
      simp [Nat.pos_iff_ne_zero.mp hpos]
    exact List.mem_filterMap.mpr ⟨(kw, p), hmem, hsome⟩

/-- Concrete text for evaluating the drivers pattern. -/
def c1text : List Char := "driver drivers DRIVER".data

theorem c1_per_file_count_witness :
    perFileCount c1text "drivers" = 3 ∧ (0 < 3 → ("drivers", 3) ∈ extract_techniques c1text) :=
  c1_per_file_count c1text "drivers" (.seq (lits "driver") optS) 3 (by decide) (by decide)

/-- C2: for every input text, `extract_steps` returns at most 10 matched
fragments (`steps[:10]`), and the per-tutorial summary keeps exactly the
first 5 of those fragments (`steps[:5]`), hence at most 5. -/
theorem c2_step_truncation (transcript_file : String) (text : List Char) :
    (extract_steps text).length ≤ 10 ∧
    (mkSummary transcript_file text).key_steps = (extract_steps text).take 5 ∧
    (mkSummary transcript_file text).key_steps.length ≤ 5 := by
  refine ⟨?_, rfl, ?_⟩
  · rw [extract_steps]
    exact List.length_take_le _ _
  · show ((extract_steps text).take 5).length ≤ 5
    exact List.length_take_le _ _

/-- C3: over zero transcript files the report has no technique lines, the
sorted aggregate is empty, and the final console line's technique name is
"None". -/
theorem c3_empty_batch :
    (analyzeFiles []).techniqueLines = [] ∧
    (analyzeFiles []).sorted_techniques = [] ∧
    (analyzeFiles []).mostCommon = "None" :=
  ⟨rfl, rfl, rfl⟩

/-- C4: for every batch of analyzed files, the report lists the aggregated
technique counts in descending order of count and the tutorial summaries in
descending order of word count. -/
theorem c4_report_sorted (files : List (String × List Char)) :
    List.Sorted descBySnd (analyzeFiles files).sorted_techniques ∧
    List.Sorted descByWordCount (analyzeFiles files).sortedSummaries := by
  haveI : IsTotal (String × Nat) descBySnd := ⟨fun a b => Nat.le_total b.2 a.2⟩
  haveI : IsTrans (String × Nat) descBySnd := ⟨fun _ _ _ h1 h2 => Nat.le_trans h2 h1⟩
  haveI : IsTotal Summary descByWordCount := ⟨fun a b => Nat.le_total b.word_count a.word_count⟩
  haveI : IsTrans Summary descByWordCount := ⟨fun _ _ _ h1 h2 => Nat.le_trans h2 h1⟩
  exact ⟨List.sorted_insertionSort descBySnd _, List.sorted_insertionSort descByWordCount _⟩

/-- The example input text of the spec. -/
def exampleText : List Char :=
  "First, add a Sound input. Then bake sound into an F-curve.".data

/-- C5 counterexample: on the spec's example text the `drivers` keyword has
count 0, not at least 1 — the text contains no occurrence of `driver[s]?` —
so the keyword does not appear in `extract_techniques`' output at all. -/
theorem c5_counterexample :
    perFileCount exampleText "drivers" = 0 ∧
    "drivers" ∉ (extract_techniques exampleText).map Prod.fst := by decide

/-- C5 amended: on the example text, `extract_steps` contains exactly the
fragments "add a Sound input" and "bake sound into an F-curve", and the
`sound_input` and `bake_sound` counts are at least 1 (the `drivers` count
is 0, see the counterexample). -/
theorem c5_example_run :
    extract_steps exampleText =
      ["add a Sound input".data, "bake sound into an F-curve".data] ∧
    1 ≤ perFileCount exampleText "sound_input" ∧
    1 ≤ perFileCount exampleText "bake_sound" := by decide

theorem readAllFiles_error (files : List (String × Except String (List Char)))
    (name e : String) (h : (name, Except.error e) ∈ files) :
    ∃ e2, readAllFiles files = .error e2 := by
  induction files with
  | nil => exact absurd h (List.not_mem_nil _)
  | cons hd tl ih =>
      obtain ⟨n2, r2⟩ := hd
      cases r2 with
      | error e2 => exact ⟨e2, rfl⟩
      | ok text =>
          have hmem : (name, Except.error e) ∈ tl := by
            rcases List.mem_cons.mp h with heq | hmem
            · exact absurd (congrArg Prod.snd heq) (by simp)
            · exact hmem
          obtain ⟨e3, h3⟩ := ih hmem
          exact ⟨e3, by rw [readAllFiles, h3]⟩

/-- C6: if any transcript file of the batch fails to open, the whole run
aborts with that propagated error and no report is produced. -/
theorem c6_batch_aborts (files : List (String × Except String (List Char)))
    (name e : String) (h : (name, Except.error e) ∈ files) :
    ∃ e2, analyzeBatch files = Except.error e2 := by
  obtain ⟨e2, h2⟩ := readAllFiles_error files name e h
  exact ⟨e2, by rw [analyzeBatch, h2]; rfl⟩

theorem c6_batch_aborts_witness :
    ∃ e2, analyzeBatch
      [("a_transcript.txt", Except.ok "some text".data),
       ("b_transcript.txt", Except.error "ENOENT")] = Except.error e2 :=
  c6_batch_aborts _ "b_transcript.txt" "ENOENT"
    (List.mem_cons_of_mem _ (List.mem_cons_self _ _))

/-- C7: a key outside the fixed registry makes `run_visualizer` return
failure without any subprocess invocation; a registered key whose script
file exists and whose probed executable path exists is routed to the single
host invocation, and exit code 0 yields success. -/
theorem c7_key_routing (env : Env) (key : String) (audio : Option String) :
    (assoc key VISUALIZERS = none → run_visualizer env key audio = (false, [])) ∧
    (∀ viz exe out err, assoc key VISUALIZERS = some viz →
      env.scriptFileExists (env.scriptDir ++ "/" ++ viz.script) = true →
      get_blender_executable env = some exe →
      env.pathExists exe = true →
      env.runProcess [exe, "--background", "--python", env.scriptDir ++ "/" ++ viz.script] 300 =
        SubprocResult.completed 0 out err →
      run_visualizer env key audio =
        (true, [([exe, "--background", "--python", env.scriptDir ++ "/" ++ viz.script], 300)])) := by
  constructor
  · intro h
    rw [run_visualizer, h]
  · intro viz exe out err h1 h2 h3 _ h5
    rw [run_visualizer, h1]
    simp only [h2, h3, h5, Bool.false_eq_true, if_false]
    rfl

/-- An environment in which every path and script exists and every
subprocess invocation completes immediately with exit code 0. -/
def envAllOk : Env :=
  { scriptDir := "blender/scripts"
    pathExists := fun _ => true
    scriptFileExists := fun _ => true
    runProcess := fun _ _ => .completed 0 "" "" }

theorem c7_key_routing_witness :
    run_visualizer envAllOk "bogus_key" none = (false, []) ∧
    run_visualizer envAllOk "fluid_audio" none =
      (true, [(["/Applications/Blender.app/Contents/MacOS/Blender", "--background", "--python",
                "blender/scripts" ++ "/" ++ "fluid_audio_visualizer.py"], 300)]) :=
  ⟨(c7_key_routing envAllOk "bogus_key" none).1 (by decide),
   (c7_key_routing envAllOk "fluid_audio" none).2
     ⟨"Fluid Simulation Audio Reactive",
      "Ocean-like fluid simulation that responds to audio frequencies",
      "fluid_audio_visualizer.py"⟩
     "/Applications/Blender.app/Contents/MacOS/Blender" "" ""
     (by decide) rfl rfl rfl rfl⟩

/-- C8: for a registered visualizer whose script exists, `run_visualizer`
returns success exactly when the single subprocess invocation — issued with
the fixed 300-second timeout — completes with exit code 0; a nonzero exit
code, a timeout, or a raised error all yield failure. -/
theorem c8_success_iff (env : Env) (key : String) (audio : Option String)
    (viz : VizInfo) (exe : String)
    (h1 : assoc key VISUALIZERS = some viz)
    (h2 : env.scriptFileExists (env.scriptDir ++ "/" ++ viz.script) = true)
    (h3 : get_blender_executable env = some exe) :
    ((run_visualizer env key audio).1 = true ↔
      ∃ out err,
        env.runProcess [exe, "--background", "--python", env.scriptDir ++ "/" ++ viz.script] 300 =
          SubprocResult.completed 0 out err) ∧
    (run_visualizer env key audio).2 =
      [([exe, "--background", "--python", env.scriptDir ++ "/" ++ viz.script], 300)] := by
  rw [run_visualizer, h1]
  simp only [h2, h3, Bool.false_eq_true, if_false]
  cases hr : env.runProcess [exe, "--background", "--python", env.scriptDir ++ "/" ++ viz.script] 300 with
  | completed rc out err =>
      refine ⟨⟨fun hb => ?_, fun hex => ?_⟩, rfl⟩
      · have hrc : rc = 0 := by simpa using hb
        exact ⟨out, err, by rw [hrc]⟩
      · obtain ⟨o2, e2, heq⟩ := hex
        injection heq with hrc _ _
        simp [hrc]
  | timedOut =>
      refine ⟨⟨fun hb => ?_, fun hex => ?_⟩, rfl⟩
      · exact absurd hb (by simp)
      · obtain ⟨o2, e2, heq⟩ := hex
        exact absurd heq (by simp)
  | raised msg =>
      refine ⟨⟨fun hb => ?_, fun hex => ?_⟩, rfl⟩
      · exact absurd hb (by simp)
      · obtain ⟨o2, e2, heq⟩ := hex
        exact absurd heq (by simp)

theorem c8_success_iff_witness :
    (run_visualizer envAllOk "procedural_space" none).1 = true :=
  ((c8_success_iff envAllOk "procedural_space" none
      ⟨"Procedural Space Visualizer",
       "Cosmic environment with stars, nebulae, and audio-reactive planets",
       "procedural_space_visualizer.py"⟩
      "/Applications/Blender.app/Contents/MacOS/Blender"
      (by decide) rfl rfl).1).mpr ⟨"", "", rfl⟩

/-- An environment in which no filesystem path exists at all. -/
def envNoBlender : Env :=
  { scriptDir := "blender/scripts"
    pathExists := fun _ => false
    scriptFileExists := fun _ => true
    runProcess := fun _ _ => .completed 0 "" "" }

/-- C9 counterexample: with every probed filesystem location missing, the
lookup does not return `none` — the final candidate, the bare name
"blender", is returned unconditionally — and `run_visualizer` on a
registered key still performs its subprocess invocation instead of
aborting. -/
theorem c9_counterexample :
    get_blender_executable envNoBlender = some "blender" ∧
    get_blender_executable envNoBlender ≠ none ∧
    (run_visualizer envNoBlender "fluid_audio" none).2 ≠ [] := by decide

/-- C9 amended: if none of the probed filesystem locations exists, the
executable lookup falls back to the bare name "blender" (to be resolved
via PATH) rather than reporting the executable as missing; the
`return None` branch — and with it the abort-with-message path of the
launcher actions — is unreachable. -/
theorem c9_blender_fallback (env : Env) (h : ∀ p, env.pathExists p = false) :
    get_blender_executable env = some "blender" := by
  rw [get_blender_executable, possible_paths]
  simp [probePaths, h]

theorem c9_blender_fallback_witness :
    get_blender_executable envNoBlender = some "blender" :=
  c9_blender_fallback envNoBlender (fun _ => rfl)

/-- C10: the subprocess command `run_visualizer` constructs never contains
the selected audio file; for any two audio selections (including none) the
whole observable outcome, in particular the invoked command list, is
identical. -/
theorem c10_audio_independent (env : Env) (key : String) (a1 a2 : Option String) :
    run_visualizer env key a1 = run_visualizer env key a2 ∧
    (run_visualizer env key a1).2 = (run_visualizer env key a2).2 :=
  ⟨rfl, rfl⟩

end Inkra
